import Mathlib

/-!
Shallow embedding of the ECL Modbus integration
(`custom_components/ecl_modbus`: `modbus.py`, `number.py`, `select.py`,
`sensor.py`, `registers.py`) and verification of its specification.

Conventions of the embedding:
* Python `int` is `Int`/`Nat`; 16-bit register words are `Nat`.
* Python `float` values flowing through validation/scaling are modelled as `ℚ`
  (exact arithmetic; `round` is round-half-to-even as in Python).
* IEEE-754 float payloads are carried as their 32-bit bit pattern
  (`(regs[0] << 16) | regs[1]`), never interpreted arithmetically.
* Fallible Python code returns `Except PyErr`; `None` results are `Option`.
* The pymodbus client and the wire are an oracle: each hub call is given a
  `ReadEnv`/`WriteEnv` describing how the transport behaves for that call
  (exception raised, error response, payload returned).
* The hub's connection handle `self._client` is `Handle := Option Unit`
  (`none` models `self._client = None`).
-/

/-- Errors raised by the embedded Python code paths. -/
inductive PyErr
  | indexError
  | valueError
  | modbusIOError
  | modbusWriteError
  | connectError
deriving DecidableEq, Repr

deriving instance DecidableEq for Except

/-- Connection handle slot of `EclModbusHub`: `none` models `self._client = None`. -/
abbrev Handle := Option Unit

/-! ### Codec (decode/encode of INT16 register words)

From `EclModbusHub.read_int16` (modbus.py 180-187) and the INT16 branch of
`EclModbusRegisterNumber._write_register_value` (number.py 180-189). -/

/-- Decode step of `EclModbusHub.read_int16`:
`if signed and raw > 0x7FFF: raw -= 0x10000`. -/
def decode_int16 (raw : ℤ) (signed : Bool) : ℤ :=
  if signed = true ∧ raw > 0x7FFF then raw - 0x10000 else raw

/-- Encode step of the INT16 branch of `_write_register_value` (number.py):
`if signed and val < 0: val = (val + 0x10000) & 0xFFFF`. -/
def encode_int16 (val : ℤ) (signed : Bool) : ℤ :=
  if signed = true ∧ val < 0 then Int.land (val + 0x10000) 0xFFFF else val

/-- Word packing in `read_float` (modbus.py 177): `raw = (regs[0] << 16) | regs[1]`. -/
def word_pack (w0 w1 : ℕ) : ℕ := w0 <<< 16 ||| w1

/-! ### Hub read path (`EclModbusHub`, modbus.py)

`ReadEnv` describes how the transport behaves for one `_read_registers` call:
`connectRaise` = `_ensure_client` raises, `readRaise` = `read_holding_registers`
raises, `errorResponse` = falsy result or `result.isError()`, `response regs` =
a response object carrying the register list `regs` (possibly empty or short). -/

inductive ReadEnv
  | connectRaise
  | readRaise
  | errorResponse
  | response (regs : List ℕ)
deriving DecidableEq, Repr

/-- `EclModbusHub._read_registers` (modbus.py 123-171). Returns the register list
(or `none`) together with the state of `self._client` after the call: the two
exception branches call `self.close()` (handle becomes `none`); the
error-response and empty-response branches return `None` WITHOUT closing. -/
def _read_registers (_client : Handle) (env : ReadEnv) : Option (List ℕ) × Handle :=
  match env with
  | .connectRaise => (none, none)
  | .readRaise => (none, none)
  | .errorResponse => (none, some ())
  | .response regs => if regs = [] then (none, some ()) else (some regs, some ())

/-- `EclModbusHub.read_float` (modbus.py 173-178). `regs[0]` / `regs[1]` raise
`IndexError` when the returned list is too short; there is no guard. The float
value is carried as its 32-bit big-endian bit pattern. -/
def read_float (client : Handle) (env : ReadEnv) : Except PyErr (Option ℕ) × Handle :=
  match _read_registers client env with
  | (none, h) => (.ok none, h)
  | (some regs, h) =>
    match regs[0]?, regs[1]? with
    | some w0, some w1 => (.ok (some (word_pack w0 w1)), h)
    | _, _ => (.error .indexError, h)

/-- `EclModbusHub.read_int16` (modbus.py 180-187). -/
def read_int16 (client : Handle) (env : ReadEnv) (signed : Bool) :
    Except PyErr (Option ℤ) × Handle :=
  match _read_registers client env with
  | (none, h) => (.ok none, h)
  | (some regs, h) =>
    match (regs[0]? : Option ℕ) with
    | some w0 => (.ok (some (decode_int16 (w0 : ℤ) signed)), h)
    | none => (.error .indexError, h)

/-- Bytes of one register word, big endian (`reg.to_bytes(2, byteorder="big")`;
wire words are 16-bit). -/
def word_bytes (w : ℕ) : List ℕ := [w / 256 % 256, w % 256]

/-- Strip characters satisfying `p` from both ends (Python `str.strip`). -/
def strip_chars (p : Char → Bool) (cs : List Char) : List Char :=
  ((cs.dropWhile p).reverse.dropWhile p).reverse

/-- String decode of `read_string` (modbus.py 189-197): bytes big-endian per word,
ASCII with invalid bytes ignored, strip NULs then whitespace, empty becomes `None`. -/
def decode_ascii (regs : List ℕ) : Option String :=
  let bytes := (regs.map word_bytes).flatten
  let chars := bytes.filterMap (fun b => if b < 128 then some (Char.ofNat b) else none)
  let t := strip_chars (fun c => c.isWhitespace) (strip_chars (fun c => c = '\x00') chars)
  if t.isEmpty then none else some (String.mk t)

/-- `EclModbusHub.read_string` (modbus.py 189-197); never raises. -/
def read_string (client : Handle) (env : ReadEnv) : Option String × Handle :=
  match _read_registers client env with
  | (none, h) => (none, h)
  | (some regs, h) => (decode_ascii regs, h)

/-- `EclModbusHub._regs_to_float_be` (sensor.py 217-224), the legacy hub float
codec: checks `len(registers) < 2` and raises `ValueError` instead of indexing
out of bounds. -/
def _regs_to_float_be : List ℕ → Except PyErr ℕ
  | w0 :: w1 :: _ => .ok (word_pack w0 w1)
  | _ => .error .valueError

/-- `EclModbusHub.read_float` of the legacy hub (sensor.py 175-190): wraps the
conversion in `try/except` and returns `None` on any conversion error. -/
def sensor_read_float (client : Handle) (env : ReadEnv) : Option ℕ × Handle :=
  match _read_registers client env with
  | (none, h) => (none, h)
  | (some regs, h) =>
    match _regs_to_float_be regs with
    | .ok bits => (some bits, h)
    | .error _ => (none, h)

/-! ### Hub write path (`EclModbusHub.write_int16` / `write_float`, modbus.py)

`WriteEnv` describes the transport behavior of one write call: the client
raises, the device answers with an error (or a falsy/no response), or the
write succeeds. -/

inductive WriteEnv
  | writeRaise
  | errorResponse
  | okResponse
deriving DecidableEq, Repr

/-- Result of a write call: the raised-or-ok outcome, the state of
`self._client` afterwards, and the 16-bit word that was put on the wire
(`none` when no request was sent or the payload is a float). -/
structure WriteResult where
  outcome : Except PyErr Unit
  client : Handle
  sentWord : Option ℤ
deriving Repr

/-- `EclModbusHub.write_int16` (modbus.py 203-217): under the lock, sends
`int(value) & 0xFFFF` and raises `ModbusIOException` on a falsy/error result.
No branch closes the connection handle on failure. -/
def write_int16 (value : ℤ) (env : WriteEnv) : WriteResult :=
  match env with
  | .writeRaise => ⟨.error .modbusIOError, some (), some (Int.land value 0xFFFF)⟩
  | .errorResponse => ⟨.error .modbusIOError, some (), some (Int.land value 0xFFFF)⟩
  | .okResponse => ⟨.ok (), some (), some (Int.land value 0xFFFF)⟩

/-- `EclModbusHub.write_float` (modbus.py 219-237): same raising behavior as
`write_int16`, payload is the two IEEE-754 words (not modelled arithmetically).
No branch closes the connection handle on failure. -/
def write_float (env : WriteEnv) : Except PyErr Unit × Handle :=
  match env with
  | .writeRaise => (.error .modbusIOError, some ())
  | .errorResponse => (.error .modbusIOError, some ())
  | .okResponse => (.ok (), some ())

/-! ### Register catalog (registers.py)

Presentation-only metadata (`name`, `unit`, `device_class`, `state_class`,
`icon`) is omitted: no embedded operation reads it. All behavior-relevant
fields are kept with their source defaults. -/

inductive RegisterType
  | FLOAT
  | INT16
  | UINT32
  | STRING16
  | STRING32
deriving DecidableEq, Repr

structure RegisterDef where
  key : String
  address : ℕ
  reg_type : RegisterType
  scale : ℚ := 1
  signed : Bool := true
  writable : Bool := false
  min_value : Option ℚ := none
  max_value : Option ℚ := none
  step : Option ℚ := none
  value_map : List (ℕ × String) := []
deriving DecidableEq, Repr

def REG_SENSORS : List RegisterDef := [
  { key := "s1_temperature", address := 4000, reg_type := .FLOAT },
  { key := "s2_temperature", address := 4010, reg_type := .FLOAT },
  { key := "s3_temperature", address := 4020, reg_type := .FLOAT },
  { key := "s4_temperature", address := 4030, reg_type := .FLOAT },
  { key := "s5_temperature", address := 4040, reg_type := .FLOAT },
  { key := "s6_temperature", address := 4050, reg_type := .FLOAT }]

def REG_DIAGNOSTICS : List RegisterDef := [
  { key := "ethernet_ip_address", address := 2100, reg_type := .STRING16 },
  { key := "ethernet_mac_address", address := 2110, reg_type := .STRING32 }]

def heat_return_temperature_reference : RegisterDef :=
  { key := "heat_return_temperature_reference", address := 21210, reg_type := .FLOAT,
    writable := true, min_value := some 5, max_value := some 150, step := some (1/10) }

def operation_mode : RegisterDef :=
  { key := "operation_mode", address := 21000, reg_type := .INT16, signed := false,
    writable := true,
    value_map := [(0, "Automatic"), (1, "Comfort"), (2, "Saving"), (3, "Frost protection")] }

def REG_EXTRAS : List RegisterDef := [
  { key := "valve_position", address := 21700, reg_type := .FLOAT },
  { key := "heat_flow_reference", address := 21200, reg_type := .FLOAT },
  { key := "heat_weather_comp_reference", address := 21206, reg_type := .FLOAT },
  heat_return_temperature_reference,
  operation_mode,
  { key := "operation_status", address := 21001, reg_type := .INT16, signed := false,
    writable := false,
    value_map := [(0, "Comfort"), (1, "Saving"), (2, "Frost protection")] }]

def REG_CIRCUIT1_SUPPLY : List RegisterDef := [
  { key := "circuit1_supply_temp_min", address := 21202, reg_type := .FLOAT,
    writable := true, min_value := some 5, max_value := some 150, step := some 1 },
  { key := "circuit1_supply_temp_max", address := 21204, reg_type := .FLOAT,
    writable := true, min_value := some 5, max_value := some 150, step := some 1 },
  { key := "circuit1_supply_temp_at_minus30", address := 21232, reg_type := .FLOAT },
  { key := "circuit1_supply_temp_at_minus15", address := 21234, reg_type := .FLOAT },
  { key := "circuit1_supply_temp_at_minus5", address := 21236, reg_type := .FLOAT },
  { key := "circuit1_supply_temp_at_0", address := 21238, reg_type := .FLOAT },
  { key := "circuit1_supply_temp_at_5", address := 21240, reg_type := .FLOAT },
  { key := "circuit1_supply_temp_at_15", address := 21242, reg_type := .FLOAT }]

def REG_CIRCUIT1_PID_TUNING : List RegisterDef := [
  { key := "circuit1_pid_xp_low", address := 21446, reg_type := .INT16, signed := false,
    writable := true, min_value := some 0, max_value := some 250, step := some 1 },
  { key := "circuit1_pid_xp_high", address := 21447, reg_type := .INT16, signed := false,
    writable := true, min_value := some 0, max_value := some 250, step := some 1 },
  { key := "circuit1_pid_tn", address := 21448, reg_type := .INT16, signed := false,
    writable := true, min_value := some 0, max_value := some 999, step := some 1 },
  { key := "circuit1_pid_deadband", address := 21458, reg_type := .FLOAT,
    writable := true, min_value := some 0, max_value := some 20, step := some 1,
    scale := 2 }]

def boost_period : RegisterDef :=
  { key := "boost_period", address := 21438, reg_type := .UINT32,
    writable := true, min_value := some 0, max_value := some 86400, step := some 60 }

def REG_COMFORT_SAVING_BOOST : List RegisterDef := [
  { key := "heat_room_comfort_relative_reference", address := 21212, reg_type := .FLOAT,
    writable := true, min_value := some (1/2), max_value := some 5, step := some (1/2) },
  { key := "heat_room_saving_relative_reference", address := 21214, reg_type := .FLOAT,
    writable := true, min_value := some (1/2), max_value := some 5, step := some (1/2) },
  { key := "boost_active", address := 21003, reg_type := .INT16, signed := false,
    writable := true, value_map := [(0, "Off"), (1, "On")] },
  { key := "boost_remaining_time", address := 21004, reg_type := .FLOAT },
  boost_period,
  { key := "boost_added_temperature", address := 21440, reg_type := .FLOAT,
    writable := true, min_value := some 0, max_value := some 25, step := some 1 }]

def ALL_REGISTERS : List RegisterDef :=
  REG_SENSORS ++ REG_DIAGNOSTICS ++ REG_EXTRAS ++ REG_CIRCUIT1_SUPPLY ++
    REG_CIRCUIT1_PID_TUNING ++ REG_COMFORT_SAVING_BOOST

/-! ### Snapshot dictionary

The coordinator's `data` is a Python dict from register key to decoded value
(`None` for a failed read). Modelled as an insertion-ordered association list
with in-place overwrite, like a Python dict. -/

/-- Decoded values stored in the coordinator snapshot. -/
inductive Value
  | floatBits (bits : ℕ)
  | intVal (v : ℤ)
  | strVal (s : String)
  | ratVal (q : ℚ)
deriving DecidableEq, Repr

abbrev Snapshot := List (String × Option Value)

/-- Python `d[k] = v`: overwrite in place if present, else append. -/
def dict_insert : Snapshot → String → Option Value → Snapshot
  | [], k, v => [(k, v)]
  | (k0, v0) :: rest, k, v =>
    if k0 = k then (k0, v) :: rest else (k0, v0) :: dict_insert rest k v

/-- Python `d.get(k)`: `none` when the key is absent. -/
def dict_get : Snapshot → String → Option (Option Value)
  | [], _ => none
  | (k0, v0) :: rest, k => if k0 = k then some v0 else dict_get rest k

/-! ### Polling coordinator (`EclModbusCoordinator._async_update_data`, modbus.py 259-278)

`envs` gives the transport behavior of the hub call at each manual address for
this cycle. Note the decode dispatch of `_read_all`: FLOAT, INT16, STRING16 and
STRING32 call the hub; every other `reg_type` — including UINT32 — falls into
the `else` branch `data[reg.key] = None` and performs no read at all. -/

def poll_register (client : Handle) (envs : ℕ → ReadEnv) (reg : RegisterDef) :
    Except PyErr (Option Value) × Handle :=
  match reg.reg_type with
  | .FLOAT =>
    match read_float client (envs reg.address) with
    | (.ok r, h) => (.ok (r.map Value.floatBits), h)
    | (.error e, h) => (.error e, h)
  | .INT16 =>
    match read_int16 client (envs reg.address) reg.signed with
    | (.ok r, h) => (.ok (r.map Value.intVal), h)
    | (.error e, h) => (.error e, h)
  | .STRING16 =>
    match read_string client (envs reg.address) with
    | (r, h) => (.ok (r.map Value.strVal), h)
  | .STRING32 =>
    match read_string client (envs reg.address) with
    | (r, h) => (.ok (r.map Value.strVal), h)
  | .UINT32 => (.ok none, client)

/-- Loop body of `_read_all`: iterate the enabled registers in catalog order,
assigning `data[reg.key]`; an exception aborts the loop (and the whole update,
surfaced as `UpdateFailed` by `_async_update_data`). -/
def _read_all (envs : ℕ → ReadEnv) : List RegisterDef → Handle → Snapshot →
    Except PyErr (Snapshot × Handle)
  | [], h, d => .ok (d, h)
  | reg :: rest, h, d =>
    match poll_register h envs reg with
    | (.error e, _) => .error e
    | (.ok v, h2) => _read_all envs rest h2 (dict_insert d reg.key v)

/-- Snapshot produced by one poll cycle (`_async_update_data`), starting from a
fresh empty dict and a given hub handle state. -/
def _async_update_data (envs : ℕ → ReadEnv) (regs : List RegisterDef) (client : Handle) :
    Except PyErr Snapshot :=
  match _read_all envs regs client [] with
  | .ok (d, _) => .ok d
  | .error e => .error e

/-! ### Lock discipline (hub lock `self._lock`)

Event traces of each operation that touches the wire. `acquire`/`release`
bracket `with self._lock:`; `wire` is one Modbus transaction
(`read_holding_registers`, `write_register`, `write_registers`). -/

inductive LockEv
  | acquire
  | release
  | wire
deriving DecidableEq, Repr

/-- Events of `EclModbusHub._read_registers`: the wire read happens inside
`with self._lock:` (modbus.py 125-136). -/
def read_registers_trace : List LockEv := [.acquire, .wire, .release]

/-- Events of `EclModbusHub.write_int16` / `write_float`: the wire write happens
inside `with self._lock:` (modbus.py 205-217, 225-237). -/
def hub_write_trace : List LockEv := [.acquire, .wire, .release]

/-- Events of `EclModbusRegisterNumber._write_register_value` (number.py 164-209):
it calls `self._hub._client.write_register(s)` directly and never touches
`self._hub._lock`. -/
def number_write_trace : List LockEv := [.wire]

/-- Events of `EclModbusRegisterSelect._write_register_value` (select.py 114-152):
same direct client call, no lock acquisition. -/
def select_write_trace : List LockEv := [.wire]

/-- Whether every `wire` event of a trace occurs while the lock is held
(depth of nested acquisitions positive). -/
def wire_locked : List LockEv → ℕ → Bool
  | [], _ => true
  | .acquire :: rest, d => wire_locked rest (d + 1)
  | .release :: rest, d => wire_locked rest (d - 1)
  | .wire :: rest, d => decide (0 < d) && wire_locked rest d

/-! ### Number entity write path (number.py)

Python's builtin `round` with no digits is round-half-to-even returning an
integer; `round(x, 6)` rounds to six decimal places, modelled exactly on `ℚ`. -/

/-- Python `round(q)`: nearest integer, ties to even. -/
def pyRound (q : ℚ) : ℤ :=
  let f := ⌊q⌋
  let frac := q - (f : ℚ)
  if frac < 1/2 then f
  else if 1/2 < frac then f + 1
  else if f % 2 = 0 then f else f + 1

/-- Python `round(q, 6)`. -/
def pyRound6 (q : ℚ) : ℚ := (pyRound (q * 1000000) : ℚ) / 1000000

/-- `_coerce_step` (number.py 44-53): `if not step: return value`,
`if step <= 0: return value`, else `round(value / step) * step` then
`round(snapped, 6)`. -/
def _coerce_step (value : ℚ) (step : Option ℚ) : ℚ :=
  match step with
  | none => value
  | some s =>
    if s = 0 then value
    else if s ≤ 0 then value
    else pyRound6 ((pyRound (value / s) : ℚ) * s)

/-- `_clamp` (number.py 56-61). -/
def _clamp (value : ℚ) (min_v max_v : Option ℚ) : ℚ :=
  match min_v, max_v with
  | some mn, _ => if value < mn then mn else
    match max_v with
    | some mx => if value > mx then mx else value
    | none => value
  | none, some mx => if value > mx then mx else value
  | none, none => value

/-- Step argument handed to `_coerce_step` by `async_set_native_value`
(number.py 147): `float(step) if step else None` — a zero step becomes `None`. -/
def step_arg (reg : RegisterDef) : Option ℚ :=
  match reg.step with
  | none => none
  | some s => if s = 0 then none else some s

/-- Value after the validation part of `async_set_native_value` (number.py
147-148): snap to step, then clamp into `[min_value, max_value]`. -/
def validated_value (reg : RegisterDef) (value : ℚ) : ℚ :=
  _clamp (_coerce_step value (step_arg reg)) reg.min_value reg.max_value

/-- Effective scale (number.py 151): `float(getattr(reg, "scale", 1.0) or 1.0)` —
a zero (falsy) scale is replaced by `1.0`. -/
def effective_scale (reg : RegisterDef) : ℚ :=
  if reg.scale = 0 then 1 else reg.scale

/-- `EclModbusRegisterNumber._write_register_value` (number.py 164-209):
dispatch on the register type; FLOAT sends two IEEE words (payload not modelled
arithmetically), INT16 sends `encode_int16 (round(raw_value))`, any other type
raises `ValueError`. Every exception inside the `try` is caught, the hub is
closed (`self._hub.close()`), and the exception re-raised; a connect failure
from `self._hub._ensure_client()` (outside the `try`) would propagate without
closing. -/
def number_write_register_value (reg : RegisterDef) (raw_value : ℚ) (env : WriteEnv) :
    WriteResult :=
  match reg.reg_type with
  | .FLOAT =>
    match env with
    | .writeRaise => ⟨.error .modbusIOError, none, none⟩
    | .errorResponse => ⟨.error .modbusWriteError, none, none⟩
    | .okResponse => ⟨.ok (), some (), none⟩
  | .INT16 =>
    let val := encode_int16 (pyRound raw_value) reg.signed
    match env with
    | .writeRaise => ⟨.error .modbusIOError, none, some val⟩
    | .errorResponse => ⟨.error .modbusWriteError, none, some val⟩
    | .okResponse => ⟨.ok (), some (), some val⟩
  | _ => ⟨.error .valueError, none, none⟩

/-- `EclModbusRegisterNumber.async_set_native_value` (number.py 137-159):
reject non-writable registers, snap and clamp the requested value, divide out
the scale, write, and on success optimistically store the RAW (pre-scale)
value under the register key in the coordinator dict. On a write failure the
exception propagates and the dict is untouched. -/
def async_set_native_value (reg : RegisterDef) (data : Snapshot) (value : ℚ)
    (env : WriteEnv) : Except PyErr Snapshot :=
  if reg.writable = false then .error .valueError
  else
    let v := validated_value reg value
    let scale := effective_scale reg
    let raw_to_write := if scale ≠ 0 then v / scale else v
    match (number_write_register_value reg raw_to_write env).outcome with
    | .error e => .error e
    | .ok _ => .ok (dict_insert data reg.key (some (.ratVal raw_to_write)))

/-- `EclModbusRegisterSelect._write_register_value` (select.py 114-152): sends
`int(code) & 0xFFFF` via `write_register`; on any exception (including the
error-response `ModbusWriteError`) the hub is closed and the exception
re-raised. -/
def select_write_register_value (code : ℤ) (env : WriteEnv) : WriteResult :=
  match env with
  | .writeRaise => ⟨.error .modbusIOError, none, some (Int.land code 0xFFFF)⟩
  | .errorResponse => ⟨.error .modbusWriteError, none, some (Int.land code 0xFFFF)⟩
  | .okResponse => ⟨.ok (), some (), some (Int.land code 0xFFFF)⟩

/-- `EclModbusRegisterSelect.async_select_option` (select.py 94-112): map the
chosen label back to its code through the reversed `value_map`, write it, and
on success store the raw code under the register key. -/
def async_select_option (reg : RegisterDef) (data : Snapshot) (option : String)
    (env : WriteEnv) : Except PyErr Snapshot :=
  match (reg.value_map.find? (fun p => p.2 = option)).map Prod.fst with
  | none => .error .valueError
  | some code =>
    if reg.writable = false then .error .valueError
    else
      match (select_write_register_value (code : ℤ) env).outcome with
      | .error e => .error e
      | .ok _ => .ok (dict_insert data reg.key (some (.intVal (code : ℤ))))

/-- Example register of the specification's validation scenario:
`minValue=5, maxValue=150, step=0.5`, writable FLOAT. -/
def spec_example_register : RegisterDef :=
  { key := "spec_example", address := 9999, reg_type := .FLOAT,
    writable := true, min_value := some 5, max_value := some 150, step := some (1/2) }

/-! ## Helper lemmas -/

/-! ### Bitwise helper lemmas

Python's `&` on arbitrary-precision integers is two's-complement bitwise and,
which is exactly `Int.land`. These lemmas relate masking with `0xFFFF` to
`% 2^16`. -/

theorem nat_land_mask (k n : ℕ) : n &&& (2 ^ k - 1) = n % 2 ^ k := by
  apply Nat.eq_of_testBit_eq
  intro i
  rw [Nat.testBit_land, Nat.testBit_mod_two_pow, Nat.testBit_two_pow_sub_one, Bool.and_comm]

theorem nat_ldiff_mask (k : ℕ) : ∀ m : ℕ, Nat.ldiff (2 ^ k - 1) m = (2 ^ k - 1) - m % 2 ^ k := by
  induction k with
  | zero =>
    intro m
    show Nat.bitwise _ 0 m = _
    rw [Nat.bitwise_zero_left]
    simp
  | succ k ih =>
    intro m
    have hp : 0 < 2 ^ k := Nat.two_pow_pos k
    rcases Nat.eq_zero_or_pos m with hm | hm
    · subst hm
      show Nat.bitwise _ _ 0 = _
      rw [Nat.bitwise_zero_right]
      simp
    · have hmask : 2 ^ (k + 1) - 1 = Nat.bit true (2 ^ k - 1) := by
        rw [Nat.bit_val, pow_succ]
        simp only [Bool.toNat_true]
        omega
      have hd : m = Nat.bit m.bodd m.div2 := (Nat.bit_decomp m).symm
      conv_lhs => rw [hmask, hd]
      show Nat.bitwise (fun a b => a && !b) (Nat.bit true (2 ^ k - 1)) (Nat.bit m.bodd m.div2) = _
      rw [Nat.bitwise_bit]
      show Nat.bit (true && !m.bodd) (Nat.ldiff (2 ^ k - 1) m.div2) = _
      rw [Bool.true_and, ih m.div2]
      have hmod : m % 2 ^ (k + 1) = m % 2 + 2 * (m / 2 % 2 ^ k) := by
        rw [pow_succ, mul_comm (2 ^ k) 2, Nat.mod_mul]
      have hb : m % 2 = m.bodd.toNat := Nat.mod_two_of_bodd m
      have hq2 : m.div2 = m / 2 := Nat.div2_val m
      have hlt : m / 2 % 2 ^ k < 2 ^ k := Nat.mod_lt _ hp
      rw [Nat.bit_val, hq2, hmod, pow_succ]
      cases hbo : m.bodd <;> simp [hbo] at hb ⊢ <;> omega

/-- Masking an integer with `0xFFFF` (Python `value & 0xFFFF`) is reduction mod `2^16`. -/
theorem int_land_mask (v : ℤ) : Int.land v 65535 = v % 65536 := by
  have h : (65535 : ℕ) = 2 ^ 16 - 1 := by norm_num
  cases v with
  | ofNat n =>
    show ((n &&& 65535 : ℕ) : ℤ) = _
    rw [h, nat_land_mask]
    have hn : Int.ofNat n = (n : ℤ) := rfl
    rw [hn]
    omega
  | negSucc m =>
    show ((Nat.ldiff 65535 m : ℕ) : ℤ) = _
    rw [h, nat_ldiff_mask]
    rw [Int.negSucc_eq]
    omega

theorem dict_insert_fresh (d : Snapshot) (k : String) (v : Option Value)
    (h : k ∉ d.map Prod.fst) : dict_insert d k v = d ++ [(k, v)] := by
  induction d with
  | nil => rfl
  | cons hd tl ih =>
    simp only [List.map_cons, List.mem_cons] at h
    push_neg at h
    have hne : ¬ hd.1 = k := fun hh => h.1 hh.symm
    simp [dict_insert, hne, ih h.2]

theorem dict_insert_keys_of_mem (d : Snapshot) (k : String) (v : Option Value)
    (h : k ∈ d.map Prod.fst) : (dict_insert d k v).map Prod.fst = d.map Prod.fst := by
  induction d with
  | nil => simp at h
  | cons hd tl ih =>
    by_cases hk : hd.1 = k
    · simp [dict_insert, hk]
    · simp only [List.map_cons, List.mem_cons] at h
      rcases h with h | h
      · exact absurd h.symm hk
      · simp [dict_insert, hk, ih h]

theorem dict_get_insert_self (d : Snapshot) (k : String) (v : Option Value) :
    dict_get (dict_insert d k v) k = some v := by
  induction d with
  | nil => simp [dict_insert, dict_get]
  | cons hd tl ih =>
    by_cases hk : hd.1 = k
    · simp [dict_insert, hk, dict_get]
    · simp [dict_insert, hk, dict_get, ih]

theorem dict_get_insert_ne (d : Snapshot) (k k2 : String) (v : Option Value)
    (h : k2 ≠ k) : dict_get (dict_insert d k v) k2 = dict_get d k2 := by
  induction d with
  | nil => simp [dict_insert, dict_get, Ne.symm h]
  | cons hd tl ih =>
    by_cases hk : hd.1 = k
    · subst hk
      simp [dict_insert, dict_get, Ne.symm h]
    · by_cases hk2 : hd.1 = k2
      · simp [dict_insert, hk, dict_get, hk2, h]
      · simp [dict_insert, hk, dict_get, hk2, ih]

/-! ## Claim theorems -/

/-- C1, counterexample: the claim asserts every wire transaction — including the
writes issued by Number entities — runs while holding the hub's lock; but the
trace of `EclModbusRegisterNumber._write_register_value` performs its wire
transaction at lock depth 0. -/
theorem c1_counterexample : wire_locked number_write_trace 0 = false := by decide

/-- C1, amended: the hub-level operations (`_read_registers`, `write_int16`,
`write_float`) perform their wire transaction while holding the hub lock, but
the Number and Select entity writes call the pymodbus client directly without
acquiring the lock, so their wire transactions are not serialized against the
coordinator's reads. -/
theorem c1_lock_discipline :
    wire_locked read_registers_trace 0 = true
    ∧ wire_locked hub_write_trace 0 = true
    ∧ wire_locked number_write_trace 0 = false
    ∧ wire_locked select_write_trace 0 = false := by decide

/-- C2, counterexample: on a Modbus error response the claim requires
`_read_registers` to return `None` AND to close the connection handle; the
error-response branch returns `None` but leaves the handle open. -/
theorem c2_counterexample :
    ¬ ((_read_registers (some ()) ReadEnv.errorResponse).1 = none
        ∧ (_read_registers (some ()) ReadEnv.errorResponse).2 = none) := by decide

/-- C2, amended: every transport-level read failure (I/O exception during
connect or read, error response, empty response) makes `_read_registers` —
and its callers `read_float`, `read_int16`, `read_string` — report `None`
rather than raising, but the connection handle is closed only in the two
exception branches; the error-response and empty-response branches return
`None` with the handle left open. -/
theorem c2_read_failure_handling (h : Handle) (s : Bool) :
    (_read_registers h .connectRaise = (none, none))
    ∧ (_read_registers h .readRaise = (none, none))
    ∧ (_read_registers h .errorResponse = (none, some ()))
    ∧ (_read_registers h (.response []) = (none, some ()))
    ∧ (read_float h .readRaise = (.ok none, none))
    ∧ (read_float h .errorResponse = (.ok none, some ()))
    ∧ (read_int16 h .readRaise s = (.ok none, none))
    ∧ (read_int16 h .errorResponse s = (.ok none, some ()))
    ∧ (read_string h .connectRaise = (none, none))
    ∧ (read_string h (.response []) = (none, some ())) :=
  ⟨rfl, rfl, rfl, rfl, rfl, rfl, rfl, rfl, rfl, rfl⟩

/-- C3, counterexample: the claim requires a failed hub write to raise AND to
close the connection handle; `EclModbusHub.write_int16` on an error response
raises `ModbusIOException` but leaves the handle open. -/
theorem c3_counterexample :
    (write_int16 5 WriteEnv.errorResponse).outcome = .error .modbusIOError
    ∧ (write_int16 5 WriteEnv.errorResponse).client ≠ none := ⟨rfl, by decide⟩

/-- C3, amended: every failed write raises to its caller; the entity-level
write paths (Number and Select) close the connection before re-raising, but
the hub's own `write_int16` and `write_float` raise without closing the
handle. -/
theorem c3_write_failure_handling (v code : ℤ) (reg : RegisterDef) (q : ℚ) :
    (write_int16 v .writeRaise).outcome = .error .modbusIOError
    ∧ (write_int16 v .writeRaise).client = some ()
    ∧ (write_int16 v .errorResponse).outcome = .error .modbusIOError
    ∧ (write_int16 v .errorResponse).client = some ()
    ∧ (write_float .writeRaise = (.error .modbusIOError, some ()))
    ∧ (write_float .errorResponse = (.error .modbusIOError, some ()))
    ∧ ((number_write_register_value reg q .writeRaise).client = none)
    ∧ ((number_write_register_value reg q .errorResponse).client = none)
    ∧ (∃ e, (number_write_register_value reg q .writeRaise).outcome = .error e)
    ∧ (∃ e, (number_write_register_value reg q .errorResponse).outcome = .error e)
    ∧ (select_write_register_value code .writeRaise).outcome = .error .modbusIOError
    ∧ (select_write_register_value code .writeRaise).client = none
    ∧ (select_write_register_value code .errorResponse).outcome = .error .modbusWriteError
    ∧ (select_write_register_value code .errorResponse).client = none := by
  refine ⟨rfl, rfl, rfl, rfl, rfl, rfl, ?_, ?_, ?_, ?_, rfl, rfl, rfl, rfl⟩ <;>
    cases hty : reg.reg_type <;>
      simp [number_write_register_value, hty]

/-- C4: evaluation of the code at the failing input. `boost_period` is declared
UINT32 in the catalog (documented there as "2 x 16-bit registers -> unsigned
32-bit int (big-endian)"), yet the decode dispatch of
`EclModbusCoordinator._async_update_data` has no UINT32 branch: the register
falls into the `else` branch and its snapshot entry is `None` on every cycle,
even when the transport would answer every read successfully. -/
theorem c4_uint32_never_decoded :
    boost_period ∈ ALL_REGISTERS
    ∧ boost_period.reg_type = RegisterType.UINT32
    ∧ _async_update_data (fun _ => ReadEnv.response [1, 2]) [boost_period] (some ())
        = .ok [("boost_period", none)] := by
  refine ⟨by decide, rfl, rfl⟩

/-- C5: evaluation of the code at the failing input. In the active hub
(modbus.py), `read_float` on a one-element register list raises `IndexError`
(`regs[1]` is unguarded) instead of returning `None`; the legacy hub
(sensor.py) implements the intended policy and returns `None` on the same
input. -/
theorem c5_read_float_short_raises :
    read_float (some ()) (ReadEnv.response [0x41C8]) = (.error .indexError, some ())
    ∧ sensor_read_float (some ()) (ReadEnv.response [0x41C8]) = (none, some ()) :=
  ⟨rfl, rfl⟩

/-- C6: decoding after encoding is the identity on the INT16 range — a signed
encode of a negative value adds `0x10000` (two's-complement) and the signed
decode subtracts it back for words above `0x7FFF`; an unsigned decode returns
every word above `0x7FFF` unchanged. -/
theorem c6_int16_roundtrip :
    (∀ v : ℤ, -32768 ≤ v → v ≤ 32767 → decode_int16 (encode_int16 v true) true = v)
    ∧ (∀ w : ℤ, w > 0x7FFF → decode_int16 w false = w) := by
  constructor
  · intro v h1 h2
    by_cases hv : v < 0
    · have henc : encode_int16 v true = v + 0x10000 := by
        unfold encode_int16
        rw [if_pos ⟨rfl, hv⟩, int_land_mask]
        omega
      rw [henc]
      unfold decode_int16
      rw [if_pos ⟨rfl, by omega⟩]
      omega
    · have henc : encode_int16 v true = v := by
        unfold encode_int16
        rw [if_neg (fun hh => hv hh.2)]
      rw [henc]
      unfold decode_int16
      rw [if_neg (fun hh => by omega)]
  · intro w _
    unfold decode_int16
    rw [if_neg (fun hh => by simp at hh)]

/-- C6 witness: the round trip at `-12345` and the unsigned decode at `40000`. -/
theorem c6_witness :
    decode_int16 (encode_int16 (-12345) true) true = -12345
    ∧ decode_int16 40000 false = 40000 :=
  ⟨c6_int16_roundtrip.1 (-12345) (by norm_num) (by norm_num),
   c6_int16_roundtrip.2 40000 (by norm_num)⟩

/-- C10: `EclModbusHub.write_int16` validates nothing — for every integer value
the word put on the wire is `int(value) & 0xFFFF`, i.e. `value mod 2^16`, and
the write succeeds; out-of-range inputs such as `70000` and `-40000` are
silently wrapped to `4464` and `25536` rather than rejected. -/
theorem c10_write_int16_wraps (v : ℤ) :
    (write_int16 v .okResponse).sentWord = some (v % 65536)
    ∧ (write_int16 v .okResponse).outcome = .ok ()
    ∧ (write_int16 70000 .okResponse).sentWord = some 4464
    ∧ (write_int16 (-40000) .okResponse).sentWord = some 25536 := by
  refine ⟨?_, rfl, ?_, ?_⟩
  · show some (Int.land v 0xFFFF) = some (v % 65536)
    rw [int_land_mask]
  · show some (Int.land 70000 0xFFFF) = some 4464
    rw [int_land_mask]
    decide
  · show some (Int.land (-40000) 0xFFFF) = some 25536
    rw [int_land_mask]
    decide

/-- C7: `async_set_native_value` first snaps the requested value to the nearest
step multiple (Python `round`, round-half-to-even) and then clamps into
`[min_value, max_value]`; with the spec's example bounds `min=5`, `max=150`,
`step=0.5`, a request of `151` yields `150` and a request of `5.3` yields
`5.5`. -/
theorem c7_snap_then_clamp :
    (∀ (reg : RegisterDef) (v : ℚ),
        validated_value reg v = _clamp (_coerce_step v (step_arg reg)) reg.min_value reg.max_value)
    ∧ validated_value spec_example_register 151 = 150
    ∧ validated_value spec_example_register (53/10) = 11/2 := by
  refine ⟨fun _ _ => rfl, ?_, ?_⟩ <;>
    · unfold validated_value _clamp _coerce_step step_arg spec_example_register pyRound6 pyRound
      norm_num

/-- C8: after a successful `async_set_native_value` the snapshot entry for the
register key holds the raw pre-scale value actually written (validated value
divided by the register scale), and every other key is unchanged. -/
theorem c8_optimistic_update (reg : RegisterDef) (data : Snapshot) (value : ℚ)
    (hw : reg.writable = true) (hs : reg.scale ≠ 0)
    (ht : reg.reg_type = RegisterType.FLOAT ∨ reg.reg_type = RegisterType.INT16) :
    async_set_native_value reg data value .okResponse =
      .ok (dict_insert data reg.key (some (.ratVal (validated_value reg value / reg.scale))))
    ∧ dict_get (dict_insert data reg.key
          (some (.ratVal (validated_value reg value / reg.scale)))) reg.key
        = some (some (.ratVal (validated_value reg value / reg.scale)))
    ∧ ∀ k, k ≠ reg.key →
        dict_get (dict_insert data reg.key
            (some (.ratVal (validated_value reg value / reg.scale)))) k
          = dict_get data k := by
  have hes : effective_scale reg = reg.scale := by
    unfold effective_scale
    rw [if_neg hs]
  refine ⟨?_, dict_get_insert_self _ _ _, fun k hk => dict_get_insert_ne _ _ _ _ hk⟩
  rcases ht with h | h <;>
    simp [async_set_native_value, hw, hes, hs, number_write_register_value, h]

/-- C8 witness: writing `40` to `heat_return_temperature_reference` (writable
FLOAT, scale 1) stores the raw value under its key in the snapshot. -/
theorem c8_witness :
    heat_return_temperature_reference.writable = true
    ∧ heat_return_temperature_reference.scale ≠ 0
    ∧ async_set_native_value heat_return_temperature_reference [("s3_temperature", none)] 40
        .okResponse
      = .ok (dict_insert [("s3_temperature", none)] heat_return_temperature_reference.key
          (some (.ratVal (validated_value heat_return_temperature_reference 40 /
            heat_return_temperature_reference.scale)))) :=
  ⟨rfl, by norm_num [heat_return_temperature_reference],
   (c8_optimistic_update heat_return_temperature_reference [("s3_temperature", none)] 40 rfl
      (by norm_num [heat_return_temperature_reference]) (Or.inl rfl)).1⟩

/-- Helper for C9: `_read_all` over registers with fresh, pairwise distinct
keys appends one `(key, value)` entry per register to the accumulating dict,
when every poll reports a value (possibly `none`) without raising. -/
theorem read_all_appends (envs : ℕ → ReadEnv) (f : RegisterDef → Option Value) :
    ∀ (regs : List RegisterDef) (h0 : Handle) (d : Snapshot),
      (∀ r ∈ regs, ∀ h, (poll_register h envs r).1 = .ok (f r)) →
      (∀ r ∈ regs, r.key ∉ d.map Prod.fst) →
      (regs.map (fun r => r.key)).Nodup →
      ∃ hFin, _read_all envs regs h0 d = .ok (d ++ regs.map (fun r => (r.key, f r)), hFin) := by
  intro regs
  induction regs with
  | nil =>
    intro h0 d _ _ _
    exact ⟨h0, by simp [_read_all]⟩
  | cons reg rest ih =>
    intro h0 d hf hfresh hnd
    have hpoll : poll_register h0 envs reg = (.ok (f reg), (poll_register h0 envs reg).2) :=
      Prod.ext (hf reg (by simp) h0) rfl
    have hins : dict_insert d reg.key (f reg) = d ++ [(reg.key, f reg)] :=
      dict_insert_fresh d reg.key (f reg) (hfresh reg (by simp))
    rw [List.map_cons, List.nodup_cons] at hnd
    have hstep : _read_all envs (reg :: rest) h0 d
        = _read_all envs rest (poll_register h0 envs reg).2 (dict_insert d reg.key (f reg)) := by
      simp only [_read_all]
      rw [hpoll]
    obtain ⟨hFin, heq⟩ := ih (poll_register h0 envs reg).2 (d ++ [(reg.key, f reg)])
      (fun r hr h => hf r (by simp [hr]) h)
      (by
        intro r hr
        simp only [List.map_append, List.mem_append, List.map_cons, List.map_nil,
          List.mem_singleton, not_or]
        refine ⟨hfresh r (by simp [hr]), ?_⟩
        intro hkey
        exact hnd.1 (hkey ▸ List.mem_map_of_mem (fun r => r.key) hr))
      hnd.2
    refine ⟨hFin, ?_⟩
    rw [hstep, hins, heq]
    simp

/-- C9: the snapshot of a completed poll cycle over the enabled subset of the
catalog has exactly the enabled register keys, in catalog order, one entry per
register (`none` for a failed read); and the optimistic single-key update
after a successful write preserves that key set. -/
theorem c9_snapshot_key_set (envs : ℕ → ReadEnv) (p : RegisterDef → Bool)
    (f : RegisterDef → Option Value) (h0 : Handle)
    (hf : ∀ r ∈ ALL_REGISTERS.filter p, ∀ h, (poll_register h envs r).1 = .ok (f r)) :
    _async_update_data envs (ALL_REGISTERS.filter p) h0 =
      .ok ((ALL_REGISTERS.filter p).map (fun r => (r.key, f r)))
    ∧ ((ALL_REGISTERS.filter p).map (fun r => (r.key, f r))).map Prod.fst
        = (ALL_REGISTERS.filter p).map (fun r => r.key)
    ∧ ∀ k v, k ∈ (ALL_REGISTERS.filter p).map (fun r => r.key) →
        (dict_insert ((ALL_REGISTERS.filter p).map (fun r => (r.key, f r))) k v).map Prod.fst
          = (ALL_REGISTERS.filter p).map (fun r => r.key) := by
  have hall : (ALL_REGISTERS.map (fun r => r.key)).Nodup := by decide
  have hsub : (ALL_REGISTERS.filter p).Sublist ALL_REGISTERS := List.filter_sublist _
  have hnd : ((ALL_REGISTERS.filter p).map (fun r => r.key)).Nodup :=
    hall.sublist (hsub.map _)
  have hkeys : ((ALL_REGISTERS.filter p).map (fun r => (r.key, f r))).map Prod.fst
      = (ALL_REGISTERS.filter p).map (fun r => r.key) := by
    simp [List.map_map, Function.comp]
  obtain ⟨hFin, heq⟩ := read_all_appends envs f (ALL_REGISTERS.filter p) h0 [] hf
    (by simp) hnd
  refine ⟨?_, hkeys, ?_⟩
  · unfold _async_update_data
    rw [heq]
    simp
  · intro k v hk
    rw [dict_insert_keys_of_mem _ _ _ (by rw [hkeys]; exact hk), hkeys]

/-- C9 witness: polling the enabled subset with addresses in `[21000, 21005)`
(operation mode/status, boost active, boost remaining time) during a cycle
where every read fails with an error response yields a snapshot with exactly
those keys, each mapped to `none`. -/
theorem c9_witness :
    (∀ r ∈ ALL_REGISTERS.filter (fun r => decide (21000 ≤ r.address ∧ r.address < 21005)),
        ∀ h : Handle, (poll_register h (fun _ => ReadEnv.errorResponse) r).1
          = .ok ((fun _ : RegisterDef => (none : Option Value)) r))
    ∧ _async_update_data (fun _ => ReadEnv.errorResponse)
        (ALL_REGISTERS.filter (fun r => decide (21000 ≤ r.address ∧ r.address < 21005)))
        (some ())
      = .ok ((ALL_REGISTERS.filter
            (fun r => decide (21000 ≤ r.address ∧ r.address < 21005))).map
          (fun r => (r.key, (fun _ : RegisterDef => (none : Option Value)) r))) :=
  ⟨by decide, (c9_snapshot_key_set (fun _ => ReadEnv.errorResponse)
      (fun r => decide (21000 ≤ r.address ∧ r.address < 21005))
      (fun _ => none) (some ()) (by decide)).1⟩
